import Mathlib

/-!
Shallow embedding of the Unicorn-Orator hardware detection and NPU runtime
core, written from `src/hardware-detect/detect.py` and
`src/kokoro-tts/npu/npu_runtime.py`.

Conventions of the embedding:
* Python dictionaries with fixed keys become Lean structures.
* Filesystem and subprocess observations become explicit environment
  records passed to each probe (the probes themselves are deterministic
  functions of those observations).
* Python exceptions that escape a function become `Except.error`;
  functions from which no exception can escape return plain values.
* Python string operations are mirrored structurally over the character
  list of the string, so that concrete runs reduce inside the kernel:
  `str.split(sep)` is `pySplit`, `str.strip()` is `pyStrip`,
  `str.lower()` is `pyLower`, and `x in s` (substring test) is
  `strContains`.
-/

/-- Does the second character list start with the first? -/
def leadsWith : List Char → List Char → Bool
  | [], _ => true
  | _ :: _, [] => false
  | p :: ps, c :: cs => p = c && leadsWith ps cs

/-- Worker for `pySplit`: `acc` is the current piece, reversed; the fuel
(initially the input length) only makes the recursion structural and is
never exhausted, since a nonempty separator match always consumes at
least one character. -/
def pySplitAux (sep : List Char) : Nat → List Char → List Char → List (List Char)
  | _, acc, [] => [acc.reverse]
  | 0, acc, rest => [acc.reverse ++ rest]
  | fuel + 1, acc, c :: cs =>
    if leadsWith sep (c :: cs) then
      acc.reverse :: pySplitAux sep fuel [] (List.drop sep.length (c :: cs))
    else pySplitAux sep fuel (c :: acc) cs

/-- Python `s.split(sep)` for a nonempty separator: splits at each
non-overlapping occurrence, left to right; the empty string yields
`[""]`. -/
def pySplit (s sep : String) : List String :=
  (pySplitAux sep.data s.data.length [] s.data).map String.mk

/-- Python `s.strip()` (over the ASCII whitespace that the probed tool
output can contain). -/
def pyStrip (s : String) : String :=
  String.mk
    (((s.data.dropWhile Char.isWhitespace).reverse.dropWhile
        Char.isWhitespace).reverse)

/-- Python `s.lower()`. -/
def pyLower (s : String) : String := String.mk (s.data.map Char.toLower)

/-- Python substring membership `pat in s` for a nonempty pattern:
`pySplit s pat` has more than one piece exactly when `pat` occurs in `s`. -/
def strContains (s pat : String) : Bool :=
  (pySplit s pat).length > 1

/-- Python `f"{x}"` on an optional integer: `None` prints as "None". -/
def pyShowOptNat : Option Nat → String
  | none => "None"
  | some n => toString n

/-- One device row parsed from the vendor GPU tool output
(`gpu_info["devices"]` entries in `detect_nvidia_gpu`). -/
structure GpuDevice where
  name : String
  memory : String
  deriving Repr, DecidableEq

/-- `detect_nvidia_gpu`'s result dictionary. -/
structure NvidiaInfo where
  available : Bool
  devices : List GpuDevice
  cudaVersion : Option String
  driverVersion : Option String
  deriving Repr, DecidableEq

/-- `detect_amd_npu`'s result dictionary. -/
structure NpuInfo where
  available : Bool
  type : Option String
  driver : Option String
  tops : Option Nat
  deriving Repr, DecidableEq

/-- `detect_intel_igpu`'s result dictionary. -/
structure IntelIgpuInfo where
  available : Bool
  device : Option String
  driver : Option String
  computeUnits : Option Nat
  deriving Repr, DecidableEq

/-- `detect_amd_igpu`'s result dictionary. -/
structure AmdIgpuInfo where
  available : Bool
  device : Option String
  driver : Option String
  model : Option String
  deriving Repr, DecidableEq

/-- `detect_cpu`'s result dictionary (fields used downstream). -/
structure CpuInfo where
  available : Bool
  vendor : String
  cores : Nat
  features : List String
  deriving Repr, DecidableEq

/-- `self.detected_hardware` after `detect_all`: one record per class. -/
structure HardwareInventory where
  cpu : CpuInfo
  nvidia_gpu : NvidiaInfo
  amd_npu : NpuInfo
  intel_igpu : IntelIgpuInfo
  amd_igpu : AmdIgpuInfo
  deriving Repr, DecidableEq

/-- The `recommendations["whisperx"]` dictionary. -/
structure WhisperxRec where
  backend : String
  variant : String
  reason : String
  deriving Repr, DecidableEq

/-- The `recommendations["kokoro"]` dictionary. -/
structure KokoroRec where
  backend : String
  reason : String
  deriving Repr, DecidableEq

/-- The full return value of `recommend_configuration`. -/
structure Recommendations where
  whisperx : WhisperxRec
  kokoro : KokoroRec
  deriving Repr, DecidableEq

/-- `HardwareDetector.recommend_configuration` (detect.py lines 286-337).
The NVIDIA branch reads `devices[0]`, which raises `IndexError` in Python
when the devices list is empty; that escape is modelled as `Except.error`. -/
def recommend_configuration (hw : HardwareInventory) :
    Except String Recommendations :=
  if hw.amd_npu.available then
    Except.ok
      { whisperx :=
          { backend := "npu", variant := "full",
            reason := "AMD NPU detected (" ++ pyShowOptNat hw.amd_npu.tops
              ++ " TOPS)" },
        kokoro :=
          { backend := "npu",
            reason := "AMD NPU provides excellent TTS acceleration" } }
  else if hw.intel_igpu.available then
    Except.ok
      { whisperx :=
          { backend := "igpu", variant := "full",
            reason := "Intel iGPU provides good acceleration via OpenVINO" },
        kokoro :=
          { backend := "igpu",
            reason := "Intel iGPU optimized with OpenVINO" } }
  else if hw.nvidia_gpu.available then
    match hw.nvidia_gpu.devices with
    | [] => Except.error "IndexError: list index out of range"
    | d :: _ =>
      Except.ok
        { whisperx :=
            { backend := "cuda", variant := "full",
              reason := "NVIDIA GPU: " ++ d.name },
          kokoro :=
            { backend := "cuda",
              reason := "NVIDIA GPU provides fastest inference" } }
  else if hw.amd_igpu.available then
    Except.ok
      { whisperx :=
          { backend := "cpu", variant := "full",
            reason := "AMD iGPU detected, using optimized CPU backend" },
        kokoro :=
          { backend := "cpu",
            reason := "AMD iGPU detected, using optimized CPU backend" } }
  else
    Except.ok
      { whisperx :=
          { backend := "cpu", variant := "full",
            reason := "Default CPU fallback" },
        kokoro :=
          { backend := "cpu", reason := "Default CPU fallback" } }

/-- The fixed backend enum of the spec (section 6 and the glossary). -/
def backendEnum : List String := ["cpu", "npu", "igpu", "cuda"]

/-- True when the string holds at least one decimal digit: how we read
"contains a throughput figure" for a justification string. -/
def hasDigit (s : String) : Bool :=
  s.data.any Char.isDigit

/-! ### The AMD NPU probe (`detect_amd_npu`, detect.py lines 115-171)

The probe observes four filesystem facts and the processor string; the
four detection methods run in source order, each mutating the shared
`npu_info` dictionary.  They are embedded as four update functions
composed in that order. -/

/-- Filesystem and platform observations consumed by `detect_amd_npu`. -/
structure NpuProbeEnv where
  xdnaExists : Bool
  npuDevNodes : Bool
  processor : String
  ryzenAiSwExists : Bool
  deriving Repr, DecidableEq

/-- The `npu_info` dictionary as initialized at the top of the probe. -/
def npuInit : NpuInfo :=
  { available := false, type := none, driver := none, tops := none }

/-- Method 1: the `/dev/xdna` driver node. -/
def npuMethod1 (xdnaExists : Bool) (i : NpuInfo) : NpuInfo :=
  if xdnaExists then { i with available := true, driver := some "xdna" } else i

/-- Method 2: `/dev/npu*` device nodes. -/
def npuMethod2 (npuDevNodes : Bool) (i : NpuInfo) : NpuInfo :=
  if npuDevNodes then { i with available := true, driver := some "npu" } else i

/-- The Phoenix (Ryzen 7040) model substrings of method 3. -/
def phoenixModels : List String := ["7840", "7940", "7640", "7540"]

/-- The Hawk Point (Ryzen 8040) model substrings of method 3. -/
def hawkPointModels : List String := ["8840", "8940", "8640", "8540"]

/-- Method 3: known-processor-model lookup.  Python guards it with the
truthiness of the processor string (empty string skips the method). -/
def npuMethod3 (processor : String) (i : NpuInfo) : NpuInfo :=
  if processor = "" then i
  else if phoenixModels.any (fun m => strContains (pyLower processor) m) then
    { i with available := true, type := some "XDNA1", tops := some 16 }
  else if hawkPointModels.any (fun m => strContains (pyLower processor) m) then
    { i with available := true, type := some "XDNA1", tops := some 16 }
  else if strContains (pyLower processor) "ai 3" then
    { i with available := true, type := some "XDNA2", tops := some 50 }
  else i

/-- Method 4: the `/opt/ryzen-ai-sw` vendor software-stack marker. -/
def npuMethod4 (ryzenAiSwExists : Bool) (i : NpuInfo) : NpuInfo :=
  if ryzenAiSwExists then
    { i with available := true, driver := some "ryzen-ai-sw" } else i

/-- `detect_amd_npu`: the four methods applied in source order. -/
def detect_amd_npu (env : NpuProbeEnv) : NpuInfo :=
  npuMethod4 env.ryzenAiSwExists
    (npuMethod3 env.processor
      (npuMethod2 env.npuDevNodes
        (npuMethod1 env.xdnaExists npuInit)))

/-! ### The NVIDIA GPU probe (`detect_nvidia_gpu`, detect.py lines 74-113)

The probe runs `nvidia-smi` twice.  Each invocation either raises
`FileNotFoundError`/`TimeoutExpired` (modelled as `none`, and caught by
the probe) or yields a return code and captured stdout.  Row parsing
unpacks `line.split(", ")` into exactly two names; any other arity raises
`ValueError`, which no handler in the probe catches, so it escapes as
`Except.error`. -/

/-- Outcome of one `subprocess.run` call: `none` models the raised
`FileNotFoundError` or `TimeoutExpired`, otherwise returncode and stdout. -/
def SubprocessResult : Type := Option (Nat × String)

/-- Observations consumed by `detect_nvidia_gpu`: the device query and the
CUDA-version query. -/
structure NvidiaProbeEnv where
  smiQuery : Option (Nat × String)
  cudaQuery : Option (Nat × String)
  deriving Repr, DecidableEq

/-- `name, memory = line.split(", ")`: succeeds only on exactly two parts. -/
def parseDeviceRow (line : String) : Except String GpuDevice :=
  match pySplit line ", " with
  | [name, memory] => Except.ok { name := name, memory := memory }
  | _ => Except.error "ValueError: unpack of line.split"

/-- The row loop of `detect_nvidia_gpu`: one device entry per stdout line,
failing on the first malformed row. -/
def parseDeviceRows : List String → Except String (List GpuDevice)
  | [] => Except.ok []
  | line :: rest => do
    let d ← parseDeviceRow line
    let ds ← parseDeviceRows rest
    Except.ok (d :: ds)

/-- `detect_nvidia_gpu`.  `FileNotFoundError`/`TimeoutExpired` from either
invocation are caught (the probe returns what was filled in so far); a
`ValueError` from row parsing escapes the probe. -/
def detect_nvidia_gpu (env : NvidiaProbeEnv) : Except String NvidiaInfo :=
  match env.smiQuery with
  | none =>
    Except.ok { available := false, devices := [], cudaVersion := none,
                driverVersion := none }
  | some (rc, out) =>
    if rc = 0 then do
      let devices ← parseDeviceRows (pySplit (pyStrip out) "\n")
      match env.cudaQuery with
      | none =>
        Except.ok { available := true, devices := devices,
                    cudaVersion := none, driverVersion := none }
      | some (rc2, out2) =>
        Except.ok
          { available := true
            devices := devices
            cudaVersion := if rc2 = 0 then some (pyStrip out2) else none
            driverVersion := none }
    else
      Except.ok { available := false, devices := [], cudaVersion := none,
                  driverVersion := none }

/-! ### The aggregate (`detect_all`, detect.py lines 30-42)

The CPU, Intel iGPU and AMD iGPU probes wrap their bodies in a broad
`except Exception` handler, so no exception escapes them and they are
total functions of their observations; `detect_amd_npu` likewise.  Only
`detect_nvidia_gpu` can raise (the `ValueError` above), and `detect_all`
installs no handler of its own, so that error aborts the aggregate. -/

/-- Observations for one full `detect_all` run.  The probes whose failures
are fully contained appear directly as the records they produce. -/
structure DetectAllEnv where
  cpuResult : CpuInfo
  nvidiaEnv : NvidiaProbeEnv
  npuEnv : NpuProbeEnv
  intelResult : IntelIgpuInfo
  amdIgpuResult : AmdIgpuInfo
  deriving Repr, DecidableEq

/-- `detect_all`: builds the inventory dictionary; an exception escaping a
class probe propagates out of `detect_all` itself. -/
def detect_all (env : DetectAllEnv) : Except String HardwareInventory := do
  let nvidia ← detect_nvidia_gpu env.nvidiaEnv
  Except.ok
    { cpu := env.cpuResult, nvidia_gpu := nvidia,
      amd_npu := detect_amd_npu env.npuEnv,
      intel_igpu := env.intelResult, amd_igpu := env.amdIgpuResult }

/-! ### The NPU runtime (`npu_runtime.py`)

`SimplifiedNPURuntime` holds a file descriptor, a model-loaded flag and a
model buffer.  File descriptors are modelled by a per-process allocation
state: `os.open` hands out the next fresh descriptor and records it live,
`os.close` removes it.  Each candidate device path contributes three
observations: whether the path exists, whether `os.open` succeeds, and
whether the capability ioctl succeeds. -/

/-- Per-process file-descriptor bookkeeping. -/
structure ProcState where
  live : List Nat
  next : Nat
  deriving Repr, DecidableEq

/-- A fresh process: no descriptors held by this code. -/
def procInit : ProcState := { live := [], next := 0 }

/-- `os.open`: returns the fresh descriptor and the grown state. -/
def osOpen (ps : ProcState) : Nat × ProcState :=
  (ps.next, { live := ps.next :: ps.live, next := ps.next + 1 })

/-- `os.close fd`: drops the descriptor from the live set. -/
def osClose (ps : ProcState) (fd : Nat) : ProcState :=
  { ps with live := ps.live.erase fd }

/-- Observed behavior of one candidate device path in
`SimplifiedNPURuntime.open_device`. -/
structure DevBehavior where
  pathExists : Bool
  openOk : Bool
  ioctlOk : Bool
  deriving Repr, DecidableEq

/-- Mutable fields of a `SimplifiedNPURuntime` instance. -/
structure RTState where
  fd : Option Nat
  modelLoaded : Bool
  modelBuffer : Option Nat
  deriving Repr, DecidableEq

/-- `SimplifiedNPURuntime.__init__`. -/
def rtInit : RTState := { fd := none, modelLoaded := false, modelBuffer := none }

/-- Result of one `open_device` call. -/
structure OpenResult where
  rt : RTState
  ps : ProcState
  value : Bool
  deriving Repr, DecidableEq

/-- The candidate loop of `SimplifiedNPURuntime.open_device` (lines 66-99):
an existing path is opened (`self.fd` is assigned the new descriptor) and
probed with the capability ioctl; on ioctl failure the descriptor is
closed, `self.fd` reset to `None`, and the next candidate tried; a failed
`os.open` leaves `self.fd` untouched.  Exhaustion returns `False` without
touching `self.fd` further. -/
def openLoop : List DevBehavior → RTState → ProcState → OpenResult
  | [], rt, ps => { rt := rt, ps := ps, value := false }
  | d :: rest, rt, ps =>
    if d.pathExists then
      if d.openOk then
        let fd := (osOpen ps).1
        let ps1 := (osOpen ps).2
        let rt1 := { rt with fd := some fd }
        if d.ioctlOk then { rt := rt1, ps := ps1, value := true }
        else openLoop rest { rt1 with fd := none } (osClose ps1 fd)
      else openLoop rest rt ps
    else openLoop rest rt ps

/-- The fixed candidate path list of `open_device`; the behaviors list
passed to `openLoop` is aligned with it positionally. -/
def devicePaths : List String :=
  ["/dev/accel/accel0", "/dev/dri/renderD128", "/dev/dri/renderD129",
   "/dev/kfd", "/dev/dri/card1"]

/-- `SimplifiedNPURuntime.open_device` on an instance in state `rt`. -/
def open_device (devs : List DevBehavior) (rt : RTState) (ps : ProcState) :
    OpenResult :=
  openLoop devs rt ps

/-- `SimplifiedNPURuntime.is_available`: `self.fd is not None`. -/
def is_available (rt : RTState) : Bool :=
  rt.fd.isSome

/-- Observations consumed by one `load_model` call: the model file read
(`none` models an `OSError`, caught and turned into `False`) and whether
the buffer-allocation ioctl succeeds. -/
structure LoadEnv where
  modelFile : Option Nat
  allocOk : Bool
  deriving Repr, DecidableEq

/-- `SimplifiedNPURuntime.load_model` (lines 104-146): requires an open
descriptor; reads the model bytes; allocates a device buffer; every
failure is caught and returned as `False` with no model bound. -/
def load_model (env : LoadEnv) (rt : RTState) : RTState × Bool :=
  if is_available rt = false then (rt, false)
  else
    match env.modelFile with
    | none => (rt, false)
    | some size =>
      if env.allocOk then
        ({ rt with modelLoaded := true, modelBuffer := some size }, true)
      else (rt, false)

/-- An input or output tensor, abstracted to its shape (a dimension
list); the runtime only ever inspects shapes. -/
def TensorShape : Type := List Nat

/-- A named-tensor mapping (Python dict of numpy arrays), keyed by name
and carrying each array's shape. -/
def TensorMap : Type := List (String × List Nat)

/-- Python `inputs["tokens"]` presence and lookup. -/
def tensorLookup (m : TensorMap) (k : String) : Option (List Nat) :=
  match m with
  | [] => none
  | (k2, v) :: rest => if k2 = k then some v else tensorLookup rest k

/-- `SimplifiedNPURuntime.run_inference` (lines 148-166): raises unless a
model is loaded; when `"tokens"` is present, reads `shape[1]` (an
`IndexError` if the array has fewer than two dimensions) and returns a
placeholder `"audio"` array of shape `(1, seq_len * 256)`; otherwise
returns the empty dict. -/
def run_inference (rt : RTState) (inputs : TensorMap) :
    Except String TensorMap :=
  if rt.modelLoaded = false then Except.error "RuntimeError: Model not loaded"
  else
    match tensorLookup inputs "tokens" with
    | some shape =>
      match shape with
      | _ :: seqLen :: _ => Except.ok [("audio", [1, seqLen * 256])]
      | _ => Except.error "IndexError: tuple index out of range"
    | none => Except.ok []

/-- `SimplifiedNPURuntime.close` (lines 168-173). -/
def rtClose (rt : RTState) (ps : ProcState) : RTState × ProcState :=
  match rt.fd with
  | some fd => ({ rt with fd := none }, osClose ps fd)
  | none => (rt, ps)

/-! ### The top-level `NPURuntime` wrapper (lines 30-55) -/

/-- Construction-time observations of `NPURuntime.__init__`: the
`CPU_ONLY_MODE` environment flag and the device-path behaviors. -/
structure NPUEnv where
  cpuOnly : Bool
  devs : List DevBehavior
  deriving Repr, DecidableEq

/-- An `NPURuntime` instance: the availability flag and the wrapped
`SimplifiedNPURuntime` (absent in CPU-only mode). -/
structure NPURuntime where
  available : Bool
  runtime : Option RTState
  deriving Repr, DecidableEq

/-- `NPURuntime.__init__`: in CPU-only mode no runtime is created;
otherwise a `SimplifiedNPURuntime` is constructed, `open_device` runs, and
availability is read back from `is_available`. -/
def mkNPURuntime (env : NPUEnv) (ps : ProcState) : NPURuntime × ProcState :=
  if env.cpuOnly then ({ available := false, runtime := none }, ps)
  else
    let r := open_device env.devs rtInit ps
    ({ available := is_available r.rt, runtime := some r.rt }, r.ps)

/-- `NPURuntime.load_model`: returns `False` when unavailable, else
delegates. -/
def NPURuntime.loadModel (n : NPURuntime) (env : LoadEnv) : Bool :=
  if n.available = false then false
  else
    match n.runtime with
    | some rt => (load_model env rt).2
    | none => false

/-- `NPURuntime.run_inference`: raises `RuntimeError` when unavailable,
else delegates.  (`runtime = none` with `available = true` cannot arise
from `mkNPURuntime`; Python would raise `AttributeError` there.) -/
def NPURuntime.runInference (n : NPURuntime) (inputs : TensorMap) :
    Except String TensorMap :=
  if n.available = false then Except.error "RuntimeError: NPU not available"
  else
    match n.runtime with
    | some rt => run_inference rt inputs
    | none => Except.error "AttributeError"

/-! ## Shared concrete instances -/

/-- The all-absent inventory: CPU present, every accelerator class
unavailable with default enrichment fields. -/
def invAllOff : HardwareInventory :=
  { cpu := { available := true, vendor := "AMD", cores := 8, features := [] },
    nvidia_gpu := { available := false, devices := [], cudaVersion := none,
                    driverVersion := none },
    amd_npu := npuInit,
    intel_igpu := { available := false, device := none, driver := none,
                    computeUnits := none },
    amd_igpu := { available := false, device := none, driver := none,
                  model := none } }

/-! ## Claims about the backend arbitration -/

/-- Claim C1: in every inventory where both the AMD NPU and the NVIDIA
discrete GPU are available, `recommend_configuration` picks backend `npu`
for both consumers and never `cuda`: the NPU branch is the first match of
the fixed priority order. -/
theorem C1_npu_beats_cuda (hw : HardwareInventory)
    (h1 : hw.amd_npu.available = true) (h2 : hw.nvidia_gpu.available = true) :
    ∃ r, recommend_configuration hw = Except.ok r ∧
      r.whisperx.backend = "npu" ∧ r.kokoro.backend = "npu" ∧
      r.whisperx.backend ≠ "cuda" ∧ r.kokoro.backend ≠ "cuda" := by
  refine ⟨{ whisperx :=
              { backend := "npu", variant := "full",
                reason := "AMD NPU detected ("
                  ++ pyShowOptNat hw.amd_npu.tops ++ " TOPS)" },
            kokoro :=
              { backend := "npu",
                reason := "AMD NPU provides excellent TTS acceleration" } },
          ?_, rfl, rfl, (by decide : ("npu" : String) ≠ "cuda"),
          (by decide : ("npu" : String) ≠ "cuda")⟩
  simp [recommend_configuration, h1]

/-- Concrete inventory with both the NPU and a discrete NVIDIA GPU. -/
def invNpuAndCuda : HardwareInventory :=
  { invAllOff with
      amd_npu := { available := true, type := some "XDNA1",
                   driver := some "xdna", tops := some 16 }
      nvidia_gpu := { available := true,
                      devices := [{ name := "ModelX", memory := "8192 MiB" }],
                      cudaVersion := some "12.2", driverVersion := none } }

/-- Witness for C1 at a concrete inventory. -/
theorem C1_witness :
    invNpuAndCuda.amd_npu.available = true ∧
    invNpuAndCuda.nvidia_gpu.available = true ∧
    ∃ r, recommend_configuration invNpuAndCuda = Except.ok r ∧
      r.whisperx.backend = "npu" ∧ r.kokoro.backend = "npu" ∧
      r.whisperx.backend ≠ "cuda" ∧ r.kokoro.backend ≠ "cuda" :=
  ⟨rfl, rfl, C1_npu_beats_cuda invNpuAndCuda rfl rfl⟩

/-- Inventory in which the NVIDIA class is marked available while its
devices list is empty, and no higher-priority class is available. -/
def invNvidiaNoDevices : HardwareInventory :=
  { invAllOff with
      nvidia_gpu := { available := true, devices := [], cudaVersion := none,
                      driverVersion := none } }

/-- Counterexample to claim C2: on `invNvidiaNoDevices` the NVIDIA branch
reads `devices[0]` and the call escapes with `IndexError` instead of
returning a recommendation, so `recommend_configuration` is not total. -/
theorem C2_counterexample :
    recommend_configuration invNvidiaNoDevices =
      Except.error "IndexError: list index out of range" := rfl

/-- Claim C2 as amended: `recommend_configuration` returns exactly one
backend id from the fixed enum for each consumer on every inventory,
except that when the NVIDIA branch is selected (NPU and Intel iGPU
unavailable, NVIDIA available) the devices list must be nonempty —
otherwise the `devices[0]` read raises `IndexError`. -/
theorem C2_total_unless_nvidia_devices_empty (hw : HardwareInventory)
    (h : hw.amd_npu.available = false → hw.intel_igpu.available = false →
         hw.nvidia_gpu.available = true → hw.nvidia_gpu.devices ≠ []) :
    ∃ r, recommend_configuration hw = Except.ok r ∧
      r.whisperx.backend ∈ backendEnum ∧ r.kokoro.backend ∈ backendEnum := by
  by_cases h1 : hw.amd_npu.available = true
  · exact ⟨{ whisperx :=
               { backend := "npu", variant := "full",
                 reason := "AMD NPU detected ("
                   ++ pyShowOptNat hw.amd_npu.tops ++ " TOPS)" },
             kokoro :=
               { backend := "npu",
                 reason := "AMD NPU provides excellent TTS acceleration" } },
           by simp [recommend_configuration, h1],
           (by decide : ("npu" : String) ∈ backendEnum),
           (by decide : ("npu" : String) ∈ backendEnum)⟩
  · have h1f : hw.amd_npu.available = false := by
      revert h1; cases hw.amd_npu.available <;> simp
    by_cases h2 : hw.intel_igpu.available = true
    · exact ⟨{ whisperx :=
                 { backend := "igpu", variant := "full",
                   reason :=
                     "Intel iGPU provides good acceleration via OpenVINO" },
               kokoro :=
                 { backend := "igpu",
                   reason := "Intel iGPU optimized with OpenVINO" } },
             by simp [recommend_configuration, h1f, h2],
             (by decide : ("igpu" : String) ∈ backendEnum),
             (by decide : ("igpu" : String) ∈ backendEnum)⟩
    · have h2f : hw.intel_igpu.available = false := by
        revert h2; cases hw.intel_igpu.available <;> simp
      by_cases h3 : hw.nvidia_gpu.available = true
      · rcases hdev : hw.nvidia_gpu.devices with _ | ⟨d, ds⟩
        · exact absurd hdev (h h1f h2f h3)
        · exact ⟨{ whisperx :=
                     { backend := "cuda", variant := "full",
                       reason := "NVIDIA GPU: " ++ d.name },
                   kokoro :=
                     { backend := "cuda",
                       reason := "NVIDIA GPU provides fastest inference" } },
                 by simp [recommend_configuration, h1f, h2f, h3, hdev],
                 (by decide : ("cuda" : String) ∈ backendEnum),
                 (by decide : ("cuda" : String) ∈ backendEnum)⟩
      · have h3f : hw.nvidia_gpu.available = false := by
          revert h3; cases hw.nvidia_gpu.available <;> simp
        by_cases h4 : hw.amd_igpu.available = true
        · exact ⟨{ whisperx :=
                     { backend := "cpu", variant := "full",
                       reason :=
                         "AMD iGPU detected, using optimized CPU backend" },
                   kokoro :=
                     { backend := "cpu",
                       reason :=
                         "AMD iGPU detected, using optimized CPU backend" } },
                 by simp [recommend_configuration, h1f, h2f, h3f, h4],
                 (by decide : ("cpu" : String) ∈ backendEnum),
                 (by decide : ("cpu" : String) ∈ backendEnum)⟩
        · have h4f : hw.amd_igpu.available = false := by
            revert h4; cases hw.amd_igpu.available <;> simp
          exact ⟨{ whisperx :=
                     { backend := "cpu", variant := "full",
                       reason := "Default CPU fallback" },
                   kokoro :=
                     { backend := "cpu", reason := "Default CPU fallback" } },
                 by simp [recommend_configuration, h1f, h2f, h3f, h4f],
                 (by decide : ("cpu" : String) ∈ backendEnum),
                 (by decide : ("cpu" : String) ∈ backendEnum)⟩

/-- Witness for the amended C2 at the all-absent inventory. -/
theorem C2_witness :
    (invAllOff.amd_npu.available = false → invAllOff.intel_igpu.available = false →
     invAllOff.nvidia_gpu.available = true → invAllOff.nvidia_gpu.devices ≠ []) ∧
    ∃ r, recommend_configuration invAllOff = Except.ok r ∧
      r.whisperx.backend ∈ backendEnum ∧ r.kokoro.backend ∈ backendEnum :=
  ⟨by decide, C2_total_unless_nvidia_devices_empty invAllOff (by decide)⟩

/-- Counterexample to claim C5: on the CPU-only inventory the
recommendation is `cpu` for both consumers, but the justification string
is "Default CPU fallback", not "no acceleration hardware detected". -/
theorem C5_counterexample :
    recommend_configuration invAllOff =
      Except.ok
        { whisperx := { backend := "cpu", variant := "full",
                        reason := "Default CPU fallback" },
          kokoro := { backend := "cpu", reason := "Default CPU fallback" } } ∧
    ("Default CPU fallback" : String) ≠ "no acceleration hardware detected" :=
  ⟨rfl, by decide⟩

/-- Claim C5 as amended: for every inventory in which no accelerator
class is available, `recommend_configuration` returns backend `cpu` for
both consumers with justification "Default CPU fallback". -/
theorem C5_cpu_only_default_fallback (hw : HardwareInventory)
    (h1 : hw.amd_npu.available = false) (h2 : hw.intel_igpu.available = false)
    (h3 : hw.nvidia_gpu.available = false)
    (h4 : hw.amd_igpu.available = false) :
    recommend_configuration hw =
      Except.ok
        { whisperx := { backend := "cpu", variant := "full",
                        reason := "Default CPU fallback" },
          kokoro := { backend := "cpu", reason := "Default CPU fallback" } } := by
  simp [recommend_configuration, h1, h2, h3, h4]

/-- Witness for the amended C5 at the all-absent inventory. -/
theorem C5_witness :
    invAllOff.amd_npu.available = false ∧ invAllOff.intel_igpu.available = false ∧
    invAllOff.nvidia_gpu.available = false ∧ invAllOff.amd_igpu.available = false ∧
    recommend_configuration invAllOff =
      Except.ok
        { whisperx := { backend := "cpu", variant := "full",
                        reason := "Default CPU fallback" },
          kokoro := { backend := "cpu", reason := "Default CPU fallback" } } :=
  ⟨rfl, rfl, rfl, rfl, C5_cpu_only_default_fallback invAllOff rfl rfl rfl rfl⟩

/-- Claim C6: when the NPU is available but its `type` and `tops` fields
are unset (device-node-only detection), both consumers get backend `npu`
and neither justification string carries a throughput figure (no decimal
digit appears; the whisperx reason renders the unset rating as
"AMD NPU detected (None TOPS)"). -/
theorem C6_npu_unidentified_no_figure (hw : HardwareInventory)
    (h1 : hw.amd_npu.available = true) (h2 : hw.amd_npu.type = none)
    (h3 : hw.amd_npu.tops = none) :
    ∃ r, recommend_configuration hw = Except.ok r ∧
      r.whisperx.backend = "npu" ∧ r.kokoro.backend = "npu" ∧
      hasDigit r.whisperx.reason = false ∧ hasDigit r.kokoro.reason = false := by
  refine ⟨{ whisperx :=
              { backend := "npu", variant := "full",
                reason := "AMD NPU detected (None TOPS)" },
            kokoro :=
              { backend := "npu",
                reason := "AMD NPU provides excellent TTS acceleration" } },
          ?_, rfl, rfl, by decide, by decide⟩
  simp [recommend_configuration, h1, h3, pyShowOptNat]

/-- Inventory with the NPU available through a device node only. -/
def invNpuNodeOnly : HardwareInventory :=
  { invAllOff with
      amd_npu := { available := true, type := none, driver := some "npu",
                   tops := none } }

/-- Witness for C6 at a concrete device-node-only inventory. -/
theorem C6_witness :
    invNpuNodeOnly.amd_npu.available = true ∧
    invNpuNodeOnly.amd_npu.type = none ∧ invNpuNodeOnly.amd_npu.tops = none ∧
    ∃ r, recommend_configuration invNpuNodeOnly = Except.ok r ∧
      r.whisperx.backend = "npu" ∧ r.kokoro.backend = "npu" ∧
      hasDigit r.whisperx.reason = false ∧ hasDigit r.kokoro.reason = false :=
  ⟨rfl, rfl, rfl, C6_npu_unidentified_no_figure invNpuNodeOnly rfl rfl rfl⟩

/-! ## Claims about the AMD NPU probe -/

/-- Method 1 never touches the `type` or `tops` fields. -/
theorem npuMethod1_type_tops (x : Bool) (i : NpuInfo) :
    (npuMethod1 x i).type = i.type ∧ (npuMethod1 x i).tops = i.tops := by
  unfold npuMethod1; split <;> exact ⟨rfl, rfl⟩

/-- Method 2 never touches the `type` or `tops` fields. -/
theorem npuMethod2_type_tops (x : Bool) (i : NpuInfo) :
    (npuMethod2 x i).type = i.type ∧ (npuMethod2 x i).tops = i.tops := by
  unfold npuMethod2; split <;> exact ⟨rfl, rfl⟩

/-- Method 4 never touches the `type` or `tops` fields. -/
theorem npuMethod4_type_tops (x : Bool) (i : NpuInfo) :
    (npuMethod4 x i).type = i.type ∧ (npuMethod4 x i).tops = i.tops := by
  unfold npuMethod4; split <;> exact ⟨rfl, rfl⟩

/-- Method 4 keeps an already-true availability flag true. -/
theorem npuMethod4_avail (x : Bool) (i : NpuInfo) (h : i.available = true) :
    (npuMethod4 x i).available = true := by
  unfold npuMethod4; split
  · rfl
  · exact h

/-- Method 3 either leaves the record untouched, or sets availability
together with exactly one of the two known (type, tops) pairs, leaving
`driver` alone. -/
theorem npuMethod3_cases (p : String) (i : NpuInfo) :
    npuMethod3 p i = i ∨
    ((npuMethod3 p i).available = true ∧
     (npuMethod3 p i).driver = i.driver ∧
     (((npuMethod3 p i).type = some "XDNA1" ∧ (npuMethod3 p i).tops = some 16) ∨
      ((npuMethod3 p i).type = some "XDNA2" ∧ (npuMethod3 p i).tops = some 50))) := by
  unfold npuMethod3
  split
  · exact Or.inl rfl
  · split
    · exact Or.inr ⟨rfl, rfl, Or.inl ⟨rfl, rfl⟩⟩
    · split
      · exact Or.inr ⟨rfl, rfl, Or.inl ⟨rfl, rfl⟩⟩
      · split
        · exact Or.inr ⟨rfl, rfl, Or.inr ⟨rfl, rfl⟩⟩
        · exact Or.inl rfl

/-- Claim C9: every record produced by the AMD NPU probe pairs `type` and
`tops`: both unset, or exactly ("XDNA1", 16) or ("XDNA2", 50); and a set
`type` only occurs on an available record. -/
theorem C9_type_tops_pairing (env : NpuProbeEnv) :
    (((detect_amd_npu env).type = none ∧ (detect_amd_npu env).tops = none) ∨
     ((detect_amd_npu env).type = some "XDNA1" ∧
        (detect_amd_npu env).tops = some 16) ∨
     ((detect_amd_npu env).type = some "XDNA2" ∧
        (detect_amd_npu env).tops = some 50)) ∧
    ((detect_amd_npu env).available = true ∨ (detect_amd_npu env).type = none) := by
  have h12t : (npuMethod2 env.npuDevNodes (npuMethod1 env.xdnaExists npuInit)).type
      = none := by
    rw [(npuMethod2_type_tops _ _).1, (npuMethod1_type_tops _ _).1]; rfl
  have h12p : (npuMethod2 env.npuDevNodes (npuMethod1 env.xdnaExists npuInit)).tops
      = none := by
    rw [(npuMethod2_type_tops _ _).2, (npuMethod1_type_tops _ _).2]; rfl
  unfold detect_amd_npu
  set i2 := npuMethod2 env.npuDevNodes (npuMethod1 env.xdnaExists npuInit) with hi2
  rcases npuMethod3_cases env.processor i2 with h3 | ⟨h3a, _, h3p⟩
  · rw [h3]
    constructor
    · exact Or.inl ⟨by rw [(npuMethod4_type_tops _ _).1, h12t],
        by rw [(npuMethod4_type_tops _ _).2, h12p]⟩
    · exact Or.inr (by rw [(npuMethod4_type_tops _ _).1, h12t])
  · constructor
    · rcases h3p with ⟨ht, hp⟩ | ⟨ht, hp⟩
      · exact Or.inr (Or.inl ⟨by rw [(npuMethod4_type_tops _ _).1, ht],
          by rw [(npuMethod4_type_tops _ _).2, hp]⟩)
      · exact Or.inr (Or.inr ⟨by rw [(npuMethod4_type_tops _ _).1, ht],
          by rw [(npuMethod4_type_tops _ _).2, hp]⟩)
    · exact Or.inl (npuMethod4_avail _ _ h3a)

/-- Method 3 never touches the `driver` field. -/
theorem npuMethod3_driver (p : String) (i : NpuInfo) :
    (npuMethod3 p i).driver = i.driver := by
  unfold npuMethod3; split_ifs <;> rfl

/-- Method 3 writes the same `type` on any two inputs that agree on
`type` (its branch conditions read only the processor string). -/
theorem npuMethod3_type_congr (p : String) (i j : NpuInfo)
    (h : i.type = j.type) :
    (npuMethod3 p i).type = (npuMethod3 p j).type := by
  unfold npuMethod3; split_ifs <;> simp [h]

/-- Method 3 writes the same `tops` on any two inputs that agree on
`tops`. -/
theorem npuMethod3_tops_congr (p : String) (i j : NpuInfo)
    (h : i.tops = j.tops) :
    (npuMethod3 p i).tops = (npuMethod3 p j).tops := by
  unfold npuMethod3; split_ifs <;> simp [h]

/-- Method 4 overwrites `driver` whenever its marker is present. -/
theorem npuMethod4_driver (x : Bool) (i : NpuInfo) :
    (npuMethod4 x i).driver =
      if x = true then some "ryzen-ai-sw" else i.driver := by
  unfold npuMethod4; split <;> simp [*]

/-- Probe environment in which both the XDNA driver node (method 1) and
the npu* device nodes (method 2) are present. -/
def envXdnaAndNpuNodes : NpuProbeEnv :=
  { xdnaExists := true, npuDevNodes := true, processor := "",
    ryzenAiSwExists := false }

/-- Counterexample to claim C4: method 1 sets `driver := "xdna"`, yet the
probe's final record carries `driver = "npu"` — the later method 2
overwrote the field set by the earlier, higher-priority method. -/
theorem C4_counterexample :
    (npuMethod1 envXdnaAndNpuNodes.xdnaExists npuInit).driver = some "xdna" ∧
    (detect_amd_npu envXdnaAndNpuNodes).driver = some "npu" ∧
    (some "xdna" : Option String) ≠ some "npu" :=
  ⟨rfl, rfl, by decide⟩

/-- Claim C4 as amended: within the AMD NPU probe, later methods do
overwrite the `driver` field — the final driver is the last matching of
method 4 ("ryzen-ai-sw"), method 2 ("npu") and method 1 ("xdna") — while
the `type` and `tops` fields are written only by method 3 and are never
overwritten afterwards. -/
theorem C4_driver_last_match_wins (env : NpuProbeEnv) :
    (detect_amd_npu env).driver =
      (if env.ryzenAiSwExists = true then some "ryzen-ai-sw"
       else if env.npuDevNodes = true then some "npu"
       else if env.xdnaExists = true then some "xdna" else none) ∧
    (detect_amd_npu env).type = (npuMethod3 env.processor npuInit).type ∧
    (detect_amd_npu env).tops = (npuMethod3 env.processor npuInit).tops := by
  rcases env with ⟨x, n, p, r⟩
  unfold detect_amd_npu
  refine ⟨?_, ?_, ?_⟩
  · rw [npuMethod4_driver, npuMethod3_driver]
    cases r <;> cases n <;> cases x <;> simp [npuMethod2, npuMethod1, npuInit]
  · rw [(npuMethod4_type_tops _ _).1]
    exact npuMethod3_type_congr _ _ _
      (by rw [(npuMethod2_type_tops _ _).1, (npuMethod1_type_tops _ _).1])
  · rw [(npuMethod4_type_tops _ _).2]
    exact npuMethod3_tops_congr _ _ _
      (by rw [(npuMethod2_type_tops _ _).2, (npuMethod1_type_tops _ _).2])

/-! ## Claims about the NVIDIA probe and the aggregate -/

/-- A device row whose split has exactly two pieces parses. -/
theorem parseDeviceRow_ok (line : String)
    (h : (pySplit line ", ").length = 2) :
    ∃ d, parseDeviceRow line = Except.ok d := by
  unfold parseDeviceRow
  rcases hsp : pySplit line ", " with _ | ⟨a, _ | ⟨b, _ | ⟨c, rest⟩⟩⟩
  · rw [hsp] at h; simp at h
  · rw [hsp] at h; simp at h
  · exact ⟨_, rfl⟩
  · rw [hsp] at h; simp at h

/-- The row loop succeeds when every line splits into exactly two
pieces. -/
theorem parseDeviceRows_ok (lines : List String)
    (h : ∀ l ∈ lines, (pySplit l ", ").length = 2) :
    ∃ ds, parseDeviceRows lines = Except.ok ds := by
  induction lines with
  | nil => exact ⟨[], rfl⟩
  | cons l rest ih =>
    obtain ⟨d, hd⟩ := parseDeviceRow_ok l (h l (List.mem_cons_self l rest))
    obtain ⟨ds, hds⟩ := ih (fun x hx => h x (List.mem_cons_of_mem l hx))
    refine ⟨d :: ds, ?_⟩
    show (do
      let d ← parseDeviceRow l
      let ds ← parseDeviceRows rest
      Except.ok (d :: ds)) = Except.ok (d :: ds)
    rw [hd]
    show (do
      let ds ← parseDeviceRows rest
      Except.ok (d :: ds)) = Except.ok (d :: ds)
    rw [hds]
    rfl

/-- Claim C3 as amended: the NVIDIA probe does not raise — and the
aggregate inventory is produced — provided every device row in the tool
output splits on ", " into exactly a name and a memory field; the two
caught exception classes (`FileNotFoundError`, `TimeoutExpired`) and
nonzero exit codes are treated as absence. -/
theorem C3_wellformed_rows_no_raise (env : DetectAllEnv)
    (h : ∀ rc out, env.nvidiaEnv.smiQuery = some (rc, out) → rc = 0 →
         ∀ l ∈ pySplit (pyStrip out) "\n", (pySplit l ", ").length = 2) :
    ∃ inv, detect_all env = Except.ok inv := by
  have hnv : ∃ info, detect_nvidia_gpu env.nvidiaEnv = Except.ok info := by
    unfold detect_nvidia_gpu
    rcases hq : env.nvidiaEnv.smiQuery with _ | ⟨rc, out⟩
    · exact ⟨_, rfl⟩
    · dsimp only
      by_cases hrc : rc = 0
      · obtain ⟨ds, hds⟩ :=
          parseDeviceRows_ok (pySplit (pyStrip out) "\n") (h rc out hq hrc)
        rw [if_pos hrc, hds]
        rcases env.nvidiaEnv.cudaQuery with _ | ⟨rc2, out2⟩
        · exact ⟨_, rfl⟩
        · exact ⟨_, rfl⟩
      · rw [if_neg hrc]
        exact ⟨_, rfl⟩
  obtain ⟨info, hinfo⟩ := hnv
  unfold detect_all
  rw [hinfo]
  exact ⟨_, rfl⟩

/-- NVIDIA probe environment whose device query succeeds but yields a row
with no ", " separator. -/
def nvidiaBadEnv : NvidiaProbeEnv :=
  { smiQuery := some (0, "NVIDIA GeForce RTX 3090 [24576 MiB]"),
    cudaQuery := none }

/-- A full detection environment containing the malformed NVIDIA output. -/
def detectAllBadEnv : DetectAllEnv :=
  { cpuResult := { available := true, vendor := "AMD", cores := 8,
                   features := [] },
    nvidiaEnv := nvidiaBadEnv,
    npuEnv := { xdnaExists := false, npuDevNodes := false, processor := "",
                ryzenAiSwExists := false },
    intelResult := { available := false, device := none, driver := none,
                     computeUnits := none },
    amdIgpuResult := { available := false, device := none, driver := none,
                       model := none } }

/-- Counterexample to claim C3: on a malformed device row (no ", "
separator) the probe raises `ValueError` — only `FileNotFoundError` and
`TimeoutExpired` are caught — and `detect_all` aborts with it instead of
producing the aggregate inventory. -/
theorem C3_counterexample :
    detect_nvidia_gpu nvidiaBadEnv =
      Except.error "ValueError: unpack of line.split" ∧
    detect_all detectAllBadEnv =
      Except.error "ValueError: unpack of line.split" :=
  ⟨rfl, rfl⟩

/-- A full detection environment whose NVIDIA tool output is one
well-formed device row. -/
def detectAllGoodEnv : DetectAllEnv :=
  { detectAllBadEnv with
      nvidiaEnv := { smiQuery := some (0, "ModelX, 8192 MiB"),
                     cudaQuery := none } }

/-- Witness for the amended C3 at a well-formed tool output. -/
theorem C3_witness :
    (∀ rc out, detectAllGoodEnv.nvidiaEnv.smiQuery = some (rc, out) → rc = 0 →
       ∀ l ∈ pySplit (pyStrip out) "\n", (pySplit l ", ").length = 2) ∧
    ∃ inv, detect_all detectAllGoodEnv = Except.ok inv := by
  have hyp : ∀ rc out,
      detectAllGoodEnv.nvidiaEnv.smiQuery = some (rc, out) → rc = 0 →
      ∀ l ∈ pySplit (pyStrip out) "\n", (pySplit l ", ").length = 2 := by
    intro rc out hq
    rw [show detectAllGoodEnv.nvidiaEnv.smiQuery
        = some (0, "ModelX, 8192 MiB") from rfl] at hq
    injection hq with hpair
    injection hpair with h1 h2
    subst h1; subst h2
    intro _
    decide
  exact ⟨hyp, C3_wellformed_rows_no_raise detectAllGoodEnv hyp⟩

/-! ## Claims about the NPU runtime -/

/-- Device behaviors in which every candidate path exists, opens, and
answers the capability ioctl (aligned with the five candidate paths). -/
def devsAllGood : List DevBehavior :=
  [{ pathExists := true, openOk := true, ioctlOk := true },
   { pathExists := true, openOk := true, ioctlOk := true },
   { pathExists := true, openOk := true, ioctlOk := true },
   { pathExists := true, openOk := true, ioctlOk := true },
   { pathExists := true, openOk := true, ioctlOk := true }]

/-- Counterexample to claim C7: after a successful `open_device`, a second
`open_device` call (no intervening `close`) opens a fresh descriptor and
overwrites `self.fd`, leaving the first descriptor live and unreferenced —
two live handles exist, so "at most one open handle" fails. -/
theorem C7_counterexample :
    (open_device devsAllGood
        (open_device devsAllGood rtInit procInit).rt
        (open_device devsAllGood rtInit procInit).ps).ps.live = [1, 0] ∧
    (open_device devsAllGood
        (open_device devsAllGood rtInit procInit).rt
        (open_device devsAllGood rtInit procInit).ps).rt.fd = some 1 ∧
    ¬((2 : Nat) ≤ 1) :=
  ⟨rfl, rfl, by decide⟩

/-- Claim C7 as amended: within a single `open_device` call no handle
leaks — every candidate that fails the ioctl probe is closed before the
next is tried, so one call leaves the process's live-descriptor list
unchanged or grown by exactly the one descriptor it returns; the leak
arises only across a second call, which overwrites `self.fd` without
closing it. -/
theorem C7_single_open_adds_at_most_one (devs : List DevBehavior)
    (rt : RTState) (ps : ProcState) :
    (open_device devs rt ps).ps.live = ps.live ∨
    ∃ fd, (open_device devs rt ps).ps.live = fd :: ps.live := by
  unfold open_device
  induction devs generalizing rt ps with
  | nil => exact Or.inl rfl
  | cons d rest ih =>
    show (openLoop (d :: rest) rt ps).ps.live = ps.live ∨
      ∃ fd, (openLoop (d :: rest) rt ps).ps.live = fd :: ps.live
    unfold openLoop
    by_cases h1 : d.pathExists = true
    · rw [if_pos h1]
      by_cases h2 : d.openOk = true
      · rw [if_pos h2]
        by_cases h3 : d.ioctlOk = true
        · rw [if_pos h3]
          exact Or.inr ⟨ps.next, rfl⟩
        · rw [if_neg h3]
          have hclose : osClose (osOpen ps).2 (osOpen ps).1 =
              { live := ps.live, next := ps.next + 1 } := by
            unfold osOpen osClose
            simp [List.erase_cons_head]
          rw [hclose]
          rcases ih { rt with fd := none }
              { live := ps.live, next := ps.next + 1 } with hsame | ⟨fd, hfd⟩
          · exact Or.inl hsame
          · exact Or.inr ⟨fd, hfd⟩
      · rw [if_neg h2]; exact ih rt ps
    · rw [if_neg h1]; exact ih rt ps

/-- A runtime state with a model bound. -/
def rtLoaded : RTState :=
  { fd := some 0, modelLoaded := true, modelBuffer := some 1024 }

/-- Counterexample to claim C8: with a model bound, an input mapping that
lacks the "tokens" key makes `run_inference` return the empty mapping —
an output with no "audio" entry at all, not a fixed-shape audio output. -/
theorem C8_counterexample :
    run_inference rtLoaded [] = Except.ok [] ∧
    tensorLookup [] "audio" = none :=
  ⟨rfl, rfl⟩

/-- Claim C8 as amended: with a model bound, `run_inference` returns the
fixed-shape placeholder output — an "audio" tensor of shape
`(1, seq_len * 256)` — exactly for input mappings that bind "tokens" to
an at-least-2-dimensional tensor; a mapping without "tokens" yields the
empty output mapping, and a "tokens" tensor of fewer than two dimensions
raises `IndexError`. -/
theorem C8_audio_iff_tokens (rt : RTState) (inputs : TensorMap)
    (b s : Nat) (dims : List Nat) (hload : rt.modelLoaded = true)
    (htok : tensorLookup inputs "tokens" = some (b :: s :: dims)) :
    run_inference rt inputs = Except.ok [("audio", [1, s * 256])] := by
  unfold run_inference
  rw [hload, htok]
  rfl

/-- Witness for the amended C8 at a concrete token tensor of shape
`(1, 10)`. -/
theorem C8_witness :
    rtLoaded.modelLoaded = true ∧
    tensorLookup [("tokens", [1, 10])] "tokens" = some (1 :: 10 :: []) ∧
    run_inference rtLoaded [("tokens", [1, 10])] =
      Except.ok [("audio", [1, 2560])] :=
  ⟨rfl, rfl, C8_audio_iff_tokens rtLoaded [("tokens", [1, 10])] 1 10 [] rfl rfl⟩

/-- If the runtime holds no descriptor and no candidate both exists,
opens, and answers the ioctl, the candidate loop ends with no
descriptor. -/
theorem openLoop_fd_none (devs : List DevBehavior) (rt : RTState)
    (ps : ProcState) (hfd : rt.fd = none)
    (h : ∀ d ∈ devs,
      ¬(d.pathExists = true ∧ d.openOk = true ∧ d.ioctlOk = true)) :
    (openLoop devs rt ps).rt.fd = none := by
  induction devs generalizing rt ps with
  | nil => exact hfd
  | cons d rest ih =>
    unfold openLoop
    by_cases h1 : d.pathExists = true
    · rw [if_pos h1]
      by_cases h2 : d.openOk = true
      · rw [if_pos h2]
        by_cases h3 : d.ioctlOk = true
        · exact absurd ⟨h1, h2, h3⟩ (h d (List.mem_cons_self d rest))
        · rw [if_neg h3]
          exact ih _ _ rfl (fun x hx => h x (List.mem_cons_of_mem d hx))
      · rw [if_neg h2]
        exact ih rt ps hfd (fun x hx => h x (List.mem_cons_of_mem d hx))
    · rw [if_neg h1]
      exact ih rt ps hfd (fun x hx => h x (List.mem_cons_of_mem d hx))

/-- Claim C10: whenever the top-level `NPURuntime` is unavailable —
always in CPU-only mode, and whenever no candidate device path accepted
the capability ioctl at construction — `run_inference` raises
`RuntimeError` rather than returning any fallback output, while
`load_model` on the same runtime returns `False` without raising. -/
theorem C10_unavailable_raises_on_inference (env : NPUEnv) (ps : ProcState)
    (h : env.cpuOnly = true ∨
      ∀ d ∈ env.devs,
        ¬(d.pathExists = true ∧ d.openOk = true ∧ d.ioctlOk = true)) :
    (mkNPURuntime env ps).1.available = false ∧
    (∀ inputs, (mkNPURuntime env ps).1.runInference inputs =
      Except.error "RuntimeError: NPU not available") ∧
    (∀ le, (mkNPURuntime env ps).1.loadModel le = false) := by
  by_cases hc : env.cpuOnly = true
  · refine ⟨?_, ?_, ?_⟩ <;>
      simp [mkNPURuntime, hc, NPURuntime.runInference, NPURuntime.loadModel]
  · have hdevs : ∀ d ∈ env.devs,
        ¬(d.pathExists = true ∧ d.openOk = true ∧ d.ioctlOk = true) := by
      rcases h with hcy | hd
      · exact absurd hcy hc
      · exact hd
    have hfd : (openLoop env.devs rtInit ps).rt.fd = none :=
      openLoop_fd_none env.devs rtInit ps rfl hdevs
    have havail :
        (mkNPURuntime env ps).1.available = false := by
      simp [mkNPURuntime, hc, open_device, is_available, hfd]
    refine ⟨havail, ?_, ?_⟩
    · intro inputs
      simp [NPURuntime.runInference, havail]
    · intro le
      simp [NPURuntime.loadModel, havail]

/-- Witness for C10 in CPU-only mode with a trivial load environment. -/
theorem C10_witness :
    ({ cpuOnly := true, devs := [] } : NPUEnv).cpuOnly = true ∧
    (mkNPURuntime { cpuOnly := true, devs := [] } procInit).1.available
      = false ∧
    (mkNPURuntime { cpuOnly := true, devs := [] } procInit).1.runInference
      [("tokens", [1, 10])] = Except.error "RuntimeError: NPU not available" ∧
    (mkNPURuntime { cpuOnly := true, devs := [] } procInit).1.loadModel
      { modelFile := some 2048, allocOk := true } = false := by
  have h := C10_unavailable_raises_on_inference
    { cpuOnly := true, devs := [] } procInit (Or.inl rfl)
  exact ⟨rfl, h.1, h.2.1 [("tokens", [1, 10])],
    h.2.2 { modelFile := some 2048, allocOk := true }⟩
